import Mathlib

/-!
Shallow embedding of `src/examples/python-demo/functions/api/handler.py`:
a single-entry request handler exposing CRUD operations over an `items`
table and a `media` table backed by an object store.  Python/library
behaviour that the handler relies on (JSON values, dict lookup,
truthiness, base64, uuid strings, presigned URLs, SQL row semantics)
is modelled explicitly; the handler's own control flow is translated
line by line.
-/

namespace PyDemo

/-- A JSON value, as produced by `json.loads`.  Python dicts are modelled
as association lists in insertion order. -/
inductive Json where
  | null
  | bool (b : Bool)
  | num (n : Int)
  | str (s : String)
  | arr (elems : List Json)
  | obj (fields : List (String × Json))

/-- Python truthiness of a JSON-decoded value (`if not data`). -/
def pyTruthy : Json → Bool
  | .null => false
  | .bool b => b
  | .num n => !(n == 0)
  | .str s => !(s == "")
  | .arr l => !l.isEmpty
  | .obj l => !l.isEmpty

/-- Truthiness of `dict.get` results: Python `None` is falsy. -/
def pyTruthyOpt : Option Json → Bool
  | none => false
  | some j => pyTruthy j

/-- `dict.get key` on a parsed JSON object (first matching key). -/
def jlookup : List (String × Json) → String → Option Json
  | [], _ => none
  | (k, v) :: rest, key => if k = key then some v else jlookup rest key

/-- `dict.get key default`: the default is used only when the key is absent;
a stored JSON `null` (Python `None`) is returned as is. -/
def jlookupD (fields : List (String × Json)) (key : String) (d : Json) : Json :=
  (jlookup fields key).getD d

/-- JSON string escaping used by `json.dumps` (quote and backslash). -/
def escapeChar (c : Char) : String :=
  if c = '"' then "\\\"" else if c = '\\' then "\\\\" else String.singleton c

def escapeString (s : String) : String :=
  String.join (s.toList.map escapeChar)

mutual

/-- `json.dumps` with its default separators. -/
def jdumps : Json → String
  | .null => "null"
  | .bool true => "true"
  | .bool false => "false"
  | .num n => toString n
  | .str s => "\"" ++ escapeString s ++ "\""
  | .arr elems => "[" ++ jdumpsList elems ++ "]"
  | .obj fields => "\x7b" ++ jdumpsFields fields ++ "\x7d"

def jdumpsList : List Json → String
  | [] => ""
  | [x] => jdumps x
  | x :: y :: xs => jdumps x ++ ", " ++ jdumpsList (y :: xs)

def jdumpsFields : List (String × Json) → String
  | [] => ""
  | [(k, v)] => "\"" ++ escapeString k ++ "\": " ++ jdumps v
  | (k, v) :: kv :: xs =>
      "\"" ++ escapeString k ++ "\": " ++ jdumps v ++ ", " ++ jdumpsFields (kv :: xs)

end

/-- Python `str()` as used in f-strings; composite reprs are abbreviated,
no claim depends on them. -/
def pyStr : Json → String
  | .null => "None"
  | .bool true => "True"
  | .bool false => "False"
  | .num n => toString n
  | .str s => s
  | .arr _ => "<list>"
  | .obj _ => "<dict>"

/-! ### Base64 (model of the `base64` standard library used by the handler)

Bytes are `Nat` values below 256.  Encoding follows RFC 4648: groups of
three bytes become four alphabet characters, a two-byte tail becomes three
characters plus one pad, a one-byte tail two characters plus two pads. -/

/-- The base64 alphabet, as a function from a sextet value to its character. -/
def sextetToChar (n : Nat) : Char :=
  if n < 26 then Char.ofNat (65 + n)
  else if n < 52 then Char.ofNat (97 + (n - 26))
  else if n < 62 then Char.ofNat (48 + (n - 52))
  else if n = 62 then '+' else '/'

/-- Inverse alphabet lookup; `none` for characters outside the alphabet. -/
def charToSextet (c : Char) : Option Nat :=
  if 65 ≤ c.toNat ∧ c.toNat ≤ 90 then some (c.toNat - 65)
  else if 97 ≤ c.toNat ∧ c.toNat ≤ 122 then some (26 + (c.toNat - 97))
  else if 48 ≤ c.toNat ∧ c.toNat ≤ 57 then some (52 + (c.toNat - 48))
  else if c = '+' then some 62
  else if c = '/' then some 63
  else none

def b64encodeChunks : List Nat → List Char
  | a :: b :: c :: rest =>
      sextetToChar (a / 4) :: sextetToChar ((a % 4) * 16 + b / 16) ::
      sextetToChar ((b % 16) * 4 + c / 64) :: sextetToChar (c % 64) ::
      b64encodeChunks rest
  | [a, b] =>
      [sextetToChar (a / 4), sextetToChar ((a % 4) * 16 + b / 16),
       sextetToChar ((b % 16) * 4), '=']
  | [a] =>
      [sextetToChar (a / 4), sextetToChar ((a % 4) * 16), '=', '=']
  | [] => []

def b64decodeChunks : List Char → Option (List Nat)
  | c1 :: c2 :: c3 :: c4 :: rest =>
      match charToSextet c1, charToSextet c2 with
      | some s1, some s2 =>
        if c3 = '=' then
          if c4 = '=' ∧ rest = [] then some [s1 * 4 + s2 / 16] else none
        else
          match charToSextet c3 with
          | some s3 =>
            if c4 = '=' then
              if rest = [] then some [s1 * 4 + s2 / 16, (s2 % 16) * 16 + s3 / 4]
              else none
            else
              match charToSextet c4, b64decodeChunks rest with
              | some s4, some bs =>
                  some ((s1 * 4 + s2 / 16) :: ((s2 % 16) * 16 + s3 / 4) ::
                        ((s3 % 4) * 64 + s4) :: bs)
              | _, _ => none
          | none => none
      | _, _ => none
  | [] => some []
  | _ => none

/-- `base64.b64decode`; `none` models the `binascii.Error` exception. -/
def b64decode (s : String) : Option (List Nat) :=
  b64decodeChunks s.toList

/-- `base64.b64encode` of a byte sequence, as text. -/
def b64encode (bs : List Nat) : String :=
  String.mk (b64encodeChunks bs)

/-! ### Persistent state

Rows of the two tables created at startup, the object-store call log, and
the generators the platform supplies (uuid stream, timestamp clock). -/

structure ItemRow where
  id : Int
  name : String
  description : Option String
  created_at : Nat
deriving DecidableEq

structure MediaRow where
  id : Int
  filename : String
  s3_key : String
  content_type : Option String
  size_bytes : Option Int
  created_at : Nat
deriving DecidableEq

/-- The relational store: both tables plus the SERIAL sequences and the
`CURRENT_TIMESTAMP` clock that the database maintains. -/
structure Db where
  items : List ItemRow
  media : List MediaRow
  itemSeq : Int
  mediaSeq : Int
  clock : Nat

/-- One boto3 call against the object store. -/
inductive S3Call where
  | putObject (bucket key : String) (body : List Nat) (contentType : String)
  | deleteObject (bucket key : String)
  | presign (bucket key : String) (expiresIn : Nat)
deriving DecidableEq

/-- Mutable world surrounding one invocation: database contents, the log of
object-store calls, and the stream of uuid4 values `uuid.uuid4()` draws from. -/
structure World where
  db : Db
  s3calls : List S3Call
  uuids : Nat → String
  uuidCtr : Nat

/-- The process environment and the outcome of the external connection
attempt at cold start. -/
structure Env where
  DATABASE_URL : Option String
  STORAGE_BUCKET : Option String
  connect_ok : Bool
  connect_err : String
  ddl_ok : Bool
  ddl_err : String

/-- Module-level globals established by the top-level code of handler.py:
`db_conn` presence, the captured `db_error`, and `s3_bucket`. -/
structure Globals where
  db_conn : Bool
  db_error : Option String
  s3_bucket : Option String
deriving DecidableEq

/-- The top-level try block of handler.py: connect when `DATABASE_URL` is
set and record any exception text in `db_error`; when the URL is absent
nothing runs and no error is recorded. -/
def startup (e : Env) : Globals :=
  match e.DATABASE_URL with
  | none => { db_conn := false, db_error := none, s3_bucket := e.STORAGE_BUCKET }
  | some url =>
    -- `if db_url:` — a set-but-empty URL is falsy and skips connecting
    if url = "" then
      { db_conn := false, db_error := none, s3_bucket := e.STORAGE_BUCKET }
    else if e.connect_ok then
      if e.ddl_ok then
        { db_conn := true, db_error := none, s3_bucket := e.STORAGE_BUCKET }
      else
        { db_conn := true, db_error := some e.ddl_err, s3_bucket := e.STORAGE_BUCKET }
    else
      { db_conn := false, db_error := some e.connect_err, s3_bucket := e.STORAGE_BUCKET }

/-- `if s3_bucket: s3_client = boto3.client(..)`: the client exists exactly
when the bucket variable is set and truthy (nonempty). -/
def s3_client (g : Globals) : Bool :=
  match g.s3_bucket with
  | some b => !(b == "")
  | none => false

def bucketName (g : Globals) : String := g.s3_bucket.getD ""

/-- Python f-string interpolation of the `db_error` variable. -/
def pyShowOptStr : Option String → String
  | none => "None"
  | some s => s

/-- The message of the exception `raise Exception(f'Database not connected: ...')`. -/
def dbNotConnectedMsg (g : Globals) : String :=
  "Database not connected: " ++ pyShowOptStr g.db_error

/-- `str()` of a row timestamp, abstracting the textual form of a
`datetime` value. -/
def str_timestamp (t : Nat) : String := toString t

/-- Modelled SQL parameter semantics for `WHERE id = %s`: an integer (or a
numeric text literal, which the database casts) selects rows by value, a
NULL parameter matches no row, and other parameter types raise. -/
def sqlIdParam : Option Json → Except String (Option Int)
  | none => .ok none
  | some .null => .ok none
  | some (.num n) => .ok (some n)
  | some (.str s) =>
      match s.toInt? with
      | some n => .ok (some n)
      | none => .error "invalid input syntax for type integer"
  | some _ => .error "operator does not exist: integer = other type"

def idMatch : Option Int → Int → Bool
  | none, _ => false
  | some v, i => i == v

/-! ### SQL query model: ORDER BY created_at DESC LIMIT 50 -/

def itemNewer (a b : ItemRow) : Prop := b.created_at ≤ a.created_at

instance : DecidableRel itemNewer := fun a b => Nat.decLe b.created_at a.created_at

instance : IsTotal ItemRow itemNewer :=
  ⟨fun a b => Nat.le_total b.created_at a.created_at⟩

instance : IsTrans ItemRow itemNewer :=
  ⟨fun _ _ _ h1 h2 => Nat.le_trans h2 h1⟩

def mediaNewer (a b : MediaRow) : Prop := b.created_at ≤ a.created_at

instance : DecidableRel mediaNewer := fun a b => Nat.decLe b.created_at a.created_at

instance : IsTotal MediaRow mediaNewer :=
  ⟨fun a b => Nat.le_total b.created_at a.created_at⟩

instance : IsTrans MediaRow mediaNewer :=
  ⟨fun _ _ _ h1 h2 => Nat.le_trans h2 h1⟩

/-- Rows produced by `SELECT .. FROM items ORDER BY created_at DESC LIMIT 50`. -/
def itemsQuery (db : Db) : List ItemRow :=
  (List.insertionSort itemNewer db.items).take 50

/-- Rows produced by `SELECT .. FROM media ORDER BY created_at DESC LIMIT 50`. -/
def mediaQuery (db : Db) : List MediaRow :=
  (List.insertionSort mediaNewer db.media).take 50

/-! ### The six operations -/

/-- Projection of one items row in `list_items`: `row[2] or ''` maps a NULL
description to the empty string, and `str(row[3])` stringifies the timestamp. -/
def projItem (r : ItemRow) : Json :=
  .obj [("id", .num r.id), ("name", .str r.name),
        ("description", .str (r.description.getD "")),
        ("createdAt", .str (str_timestamp r.created_at))]

def list_items (g : Globals) (w : World) : Except String Json × World :=
  if !g.db_conn then (.error (dbNotConnectedMsg g), w)
  else (.ok (.arr ((itemsQuery w.db).map projItem)), w)

/-- Parameter adaptation for `INSERT INTO items (name, description)`:
`name` must be text and non-NULL (NOT NULL column), `description` may be
text or NULL; other parameter types are rejected by the database layer. -/
def itemInsertParams (name : Option Json) (description : Json) :
    Except String (String × Option String) :=
  match name, description with
  | some (.str nm), .str ds => .ok (nm, some ds)
  | some (.str nm), .null => .ok (nm, none)
  | some .null, _ => .error "null value in column name violates not-null constraint"
  | none, _ => .error "null value in column name violates not-null constraint"
  | some _, _ => .error "invalid parameter types for INSERT INTO items"

def create_item (g : Globals) (w : World) (fields : List (String × Json)) :
    Except String Json × World :=
  if !g.db_conn then (.error (dbNotConnectedMsg g), w)
  else
    let name := jlookup fields "name"
    let description := jlookupD fields "description" (.str "")
    match itemInsertParams name description with
    | .error e => (.error e, w)
    | .ok (nm, ds) =>
      let row : ItemRow :=
        { id := w.db.itemSeq, name := nm, description := ds, created_at := w.db.clock }
      let db' := { w.db with items := w.db.items ++ [row],
                             itemSeq := w.db.itemSeq + 1, clock := w.db.clock + 1 }
      (.ok (.obj [("id", .num row.id), ("name", .str nm), ("description", description),
                  ("createdAt", .str (str_timestamp row.created_at))]),
       { w with db := db' })

def delete_item (g : Globals) (w : World) (fields : List (String × Json)) :
    Except String Json × World :=
  if !g.db_conn then (.error (dbNotConnectedMsg g), w)
  else
    match sqlIdParam (jlookup fields "id") with
    | .error e => (.error e, w)
    | .ok idv =>
      let rowcount := w.db.items.countP (fun r => idMatch idv r.id)
      let db' := { w.db with items := w.db.items.filter (fun r => !idMatch idv r.id) }
      (.ok (.obj [("deleted", .bool (decide (0 < rowcount)))]), { w with db := db' })

/-- The storage key `f"media/.../..."` built in `upload_media`. -/
def mediaKey (u fn : String) : String := "media/" ++ u ++ "/" ++ fn

/-- Modelled from boto3: `generate_presigned_url` for `get_object`. -/
def presignedUrl (bucket key : String) (expiresIn : Nat) : String :=
  "https://" ++ bucket ++ ".s3.amazonaws.com/" ++ key ++ "?X-Amz-Expires=" ++
    toString expiresIn

def upload_media (g : Globals) (w : World) (fields : List (String × Json)) :
    Except String Json × World :=
  if !g.db_conn then (.error (dbNotConnectedMsg g), w)
  else if !s3_client g then (.error "Storage not configured", w)
  else
    let filename := jlookupD fields "filename" (.str "file")
    let content_type := jlookupD fields "contentType" (.str "application/octet-stream")
    let data := jlookup fields "data"
    if !pyTruthyOpt data then (.error "No file data provided", w)
    else
      match data with
      | some (.str s) =>
        match b64decode s with
        | none => (.error "Invalid base64-encoded string", w)
        | some file_bytes =>
          let u := w.uuids w.uuidCtr
          let w1 := { w with uuidCtr := w.uuidCtr + 1 }
          let s3_key := mediaKey u (pyStr filename)
          -- boto3 validates parameter types before performing the request
          match content_type with
          | .str ct =>
            let w2 := { w1 with s3calls :=
              w1.s3calls ++ [S3Call.putObject (bucketName g) s3_key file_bytes ct] }
            let url := presignedUrl (bucketName g) s3_key 86400
            let w3 := { w2 with s3calls :=
              w2.s3calls ++ [S3Call.presign (bucketName g) s3_key 86400] }
            match filename with
            | .str fn =>
              let row : MediaRow :=
                { id := w3.db.mediaSeq, filename := fn, s3_key := s3_key,
                  content_type := some ct, size_bytes := some (file_bytes.length : Int),
                  created_at := w3.db.clock }
              let db' := { w3.db with media := w3.db.media ++ [row],
                                      mediaSeq := w3.db.mediaSeq + 1,
                                      clock := w3.db.clock + 1 }
              (.ok (.obj [("id", .num row.id), ("filename", .str fn),
                          ("s3Key", .str s3_key), ("url", .str url),
                          ("createdAt", .str (str_timestamp row.created_at))]),
               { w3 with db := db' })
            | _ => (.error "invalid parameter type for INSERT INTO media", w3)
          | _ => (.error "Parameter validation failed: invalid type for ContentType", w1)
      | _ => (.error "argument should be a bytes-like object or ASCII string", w)

def optStrJson : Option String → Json
  | none => .null
  | some s => .str s

def optIntJson : Option Int → Json
  | none => .null
  | some n => .num n

/-- Projection of one media row in `list_media`: a presigned URL when the
client exists, otherwise the static path `f"/..."` from the key. -/
def projMedia (g : Globals) (r : MediaRow) : Json :=
  .obj [("id", .num r.id), ("filename", .str r.filename), ("s3Key", .str r.s3_key),
        ("url", .str (if s3_client g then presignedUrl (bucketName g) r.s3_key 86400
                      else "/" ++ r.s3_key)),
        ("contentType", optStrJson r.content_type),
        ("sizeBytes", optIntJson r.size_bytes),
        ("createdAt", .str (str_timestamp r.created_at))]

def list_media (g : Globals) (w : World) : Except String Json × World :=
  if !g.db_conn then (.error (dbNotConnectedMsg g), w)
  else
    let rows := mediaQuery w.db
    let w' :=
      if s3_client g then
        { w with s3calls := w.s3calls ++
            rows.map (fun r => S3Call.presign (bucketName g) r.s3_key 86400) }
      else w
    (.ok (.arr (rows.map (projMedia g))), w')

def delete_media (g : Globals) (w : World) (fields : List (String × Json)) :
    Except String Json × World :=
  if !g.db_conn then (.error (dbNotConnectedMsg g), w)
  else if !s3_client g then (.error "Storage not configured", w)
  else
    match sqlIdParam (jlookup fields "id") with
    | .error e => (.error e, w)
    | .ok idv =>
      -- SELECT s3_key FROM media WHERE id = %s ; fetchone()
      match w.db.media.find? (fun r => idMatch idv r.id) with
      | some row =>
        let w1 := { w with s3calls :=
          w.s3calls ++ [S3Call.deleteObject (bucketName g) row.s3_key] }
        let db' := { w1.db with media := w1.db.media.filter (fun r => !idMatch idv r.id) }
        (.ok (.obj [("deleted", .bool true)]), { w1 with db := db' })
      | none => (.ok (.obj [("deleted", .bool false)]), w)

/-! ### Dispatcher -/

/-- The default status-probe result. -/
def statusProbe (g : Globals) : Json :=
  .obj [("status", .str "ok"), ("python", .str "3.13"),
        ("db", .bool g.db_conn), ("storage", .bool g.s3_bucket.isSome),
        ("dbError", .str (g.db_error.getD ""))]

/-- One inbound event: an optional text body (`event.get('body')`). -/
structure Event where
  body : Option String

/-- The returned record. -/
structure Response where
  statusCode : Nat
  headers : List (String × String)
  body : String
deriving DecidableEq

def responseHeaders : List (String × String) :=
  [("Content-Type", "application/json"), ("Access-Control-Allow-Origin", "*")]

/-- `event.get('body') or '\x7b\x7d'`: an absent or falsy (empty) body
defaults to the empty-object text. -/
def rawBody (e : Event) : String :=
  match e.body with
  | none => "\x7b\x7d"
  | some s => if s = "" then "\x7b\x7d" else s

/-- Dispatch on the `action` field.  `body.get` on a non-dict raises an
AttributeError, which the outer handler converts to a 500. -/
def runAction (g : Globals) (w : World) (body : Json) : Except String Json × World :=
  match body with
  | .obj fields =>
    match jlookupD fields "action" (.str "status") with
    | .str "list" => list_items g w
    | .str "create" => create_item g w fields
    | .str "delete" => delete_item g w fields
    | .str "upload" => upload_media g w fields
    | .str "list-media" => list_media g w
    | .str "delete-media" => delete_media g w fields
    | _ => (.ok (statusProbe g), w)
  | _ => (.error "object has no attribute get", w)

/-- The entry point `main(event, context)`.  `loads` is the `json.loads`
parser, an external library function whose failures surface as the
`Except.error` message.  The whole body sits inside one try/except, so
every outcome is a well-formed response. -/
def main (loads : String → Except String Json) (g : Globals) (w : World)
    (event : Event) : Response × World :=
  match loads (rawBody event) with
  | .error e =>
    ({ statusCode := 500, headers := responseHeaders,
       body := jdumps (.obj [("error", .str e)]) }, w)
  | .ok bodyJson =>
    match runAction g w bodyJson with
    | (.ok result, w') =>
      ({ statusCode := 200, headers := responseHeaders, body := jdumps result }, w')
    | (.error e, w') =>
      ({ statusCode := 500, headers := responseHeaders,
         body := jdumps (.obj [("error", .str e)]) }, w')

/-! ### Sessions of create requests -/

/-- A session: a sequence of create-item requests against one database
instance, threading the world through each call. -/
def runCreates (g : Globals) (w : World) :
    List (List (String × Json)) → List (Except String Json) × World
  | [] => ([], w)
  | b :: bs =>
    match create_item g w b with
    | (r, w1) =>
      match runCreates g w1 bs with
      | (rs, w2) => (r :: rs, w2)

/-- The `id` field of a successful operation result. -/
def resultId : Except String Json → Int
  | .ok (.obj (("id", .num i) :: _)) => i
  | _ => 0

/-- Whether an operation result is a success. -/
def isOkResult : Except String Json → Bool
  | .ok _ => true
  | .error _ => false

/-- The `s3Key` field of a successful operation result. -/
def resultS3Key : Except String Json → Option String
  | .ok (.obj fields) =>
    match jlookup fields "s3Key" with
    | some (.str k) => some k
    | _ => none
  | _ => none

/-! ### Concrete fixtures for instantiating the theorems -/

def emptyDb : Db :=
  { items := [], media := [], itemSeq := 1, mediaSeq := 1, clock := 0 }

def world0 : World :=
  { db := emptyDb, s3calls := [],
    uuids := fun n =>
      if n = 0 then "00000000-0000-4000-8000-000000000000"
      else "11111111-1111-4111-8111-111111111111",
    uuidCtr := 0 }

/-- Environment with no database URL and a configured bucket. -/
def envNoDb : Env :=
  { DATABASE_URL := none, STORAGE_BUCKET := some "demo-bucket",
    connect_ok := true, connect_err := "", ddl_ok := true, ddl_err := "" }

/-- Globals of a fully connected instance. -/
def gFull : Globals :=
  { db_conn := true, db_error := none, s3_bucket := some "demo-bucket" }

/-- Globals of a connected database with no bucket configured. -/
def gNoStorage : Globals :=
  { db_conn := true, db_error := none, s3_bucket := none }

def mediaRow7 : MediaRow :=
  { id := 7, filename := "a.txt", s3_key := "media/u/a.txt",
    content_type := some "text/plain", size_bytes := some 2, created_at := 3 }

def itemRow1 : ItemRow :=
  { id := 1, name := "widget", description := none, created_at := 3 }

def itemRow2 : ItemRow :=
  { id := 2, name := "gadget", description := some "a thing", created_at := 5 }

/-- A world holding one media row and two item rows. -/
def worldData : World :=
  { db := { items := [itemRow1, itemRow2], media := [mediaRow7],
            itemSeq := 3, mediaSeq := 8, clock := 6 },
    s3calls := [], uuids := fun _ => "u", uuidCtr := 0 }

/-! ## Theorems -/

/-! ### Base64 round trip -/

theorem charToSextet_sextetToChar (n : Nat) (h : n < 64) :
    charToSextet (sextetToChar n) = some n := by
  revert h; revert n; decide

theorem sextetToChar_ne_pad (n : Nat) (h : n < 64) : sextetToChar n ≠ '=' := by
  revert h; revert n; decide

theorem b64_chunks_roundtrip (bs : List Nat) (h : ∀ x ∈ bs, x < 256) :
    b64decodeChunks (b64encodeChunks bs) = some bs := by
  induction bs using b64encodeChunks.induct with
  | case1 a b c rest ih =>
    have ha : a < 256 := h a (by simp)
    have hb : b < 256 := h b (by simp)
    have hc : c < 256 := h c (by simp)
    have h1 : a / 4 < 64 := by omega
    have h2 : (a % 4) * 16 + b / 16 < 64 := by omega
    have h3 : (b % 16) * 4 + c / 64 < 64 := by omega
    have h4 : c % 64 < 64 := by omega
    have ih' := ih (fun x hx => h x (by simp [hx]))
    simp only [b64encodeChunks, b64decodeChunks,
      charToSextet_sextetToChar _ h1, charToSextet_sextetToChar _ h2,
      charToSextet_sextetToChar _ h3, charToSextet_sextetToChar _ h4,
      if_neg (sextetToChar_ne_pad _ h3), if_neg (sextetToChar_ne_pad _ h4), ih']
    refine congrArg some ?_
    have e1 : a / 4 * 4 + ((a % 4) * 16 + b / 16) / 16 = a := by omega
    have e2 : (((a % 4) * 16 + b / 16) % 16) * 16 + ((b % 16) * 4 + c / 64) / 4 = b := by
      omega
    have e3 : (((b % 16) * 4 + c / 64) % 4) * 64 + c % 64 = c := by omega
    rw [e1, e2, e3]
  | case2 a b =>
    have ha : a < 256 := h a (by simp)
    have hb : b < 256 := h b (by simp)
    have h1 : a / 4 < 64 := by omega
    have h2 : (a % 4) * 16 + b / 16 < 64 := by omega
    have h3 : (b % 16) * 4 < 64 := by omega
    simp only [b64encodeChunks, b64decodeChunks,
      charToSextet_sextetToChar _ h1, charToSextet_sextetToChar _ h2,
      charToSextet_sextetToChar _ h3, if_neg (sextetToChar_ne_pad _ h3), if_pos rfl]
    refine congrArg some ?_
    have e1 : a / 4 * 4 + ((a % 4) * 16 + b / 16) / 16 = a := by omega
    have e2 : (((a % 4) * 16 + b / 16) % 16) * 16 + (b % 16) * 4 / 4 = b := by omega
    rw [e1, e2]
  | case3 a =>
    have ha : a < 256 := h a (by simp)
    have h1 : a / 4 < 64 := by omega
    have h2 : (a % 4) * 16 < 64 := by omega
    simp only [b64encodeChunks, b64decodeChunks,
      charToSextet_sextetToChar _ h1, charToSextet_sextetToChar _ h2, if_pos rfl,
      if_pos (And.intro rfl rfl)]
    refine congrArg some ?_
    have e1 : a / 4 * 4 + (a % 4) * 16 / 16 = a := by omega
    rw [e1]
  | case4 => rfl

theorem b64_roundtrip (bs : List Nat) (h : ∀ x ∈ bs, x < 256) :
    b64decode (b64encode bs) = some bs := by
  show b64decodeChunks (String.mk (b64encodeChunks bs)).toList = some bs
  have : (String.mk (b64encodeChunks bs)).toList = b64encodeChunks bs := rfl
  rw [this, b64_chunks_roundtrip bs h]

/-! ### Claim theorems -/

/-- C1: Every invocation of `main` returns a record whose headers are
exactly the Content-Type and CORS pair, and whose status is 200 or 500.
When the body parses and the dispatched operation returns a result, the
response is 200 with the JSON encoding of exactly that result; when the
dispatched operation raises, the response is 500 with the JSON object
carrying that exception's message under `error`; when the JSON parse
itself fails the response is the 500 error response for the parser's
message and the world is untouched.  `main` is a total Lean function,
so the entry point never raises. -/
theorem c1_response_envelope (loads : String → Except String Json) (g : Globals)
    (w : World) (event : Event) :
    (main loads g w event).1.headers = responseHeaders ∧
    ((main loads g w event).1.statusCode = 200 ∨
      (main loads g w event).1.statusCode = 500) ∧
    (match loads (rawBody event) with
     | .error m =>
        main loads g w event =
          ({ statusCode := 500, headers := responseHeaders,
             body := jdumps (.obj [("error", .str m)]) }, w)
     | .ok bodyJson =>
       match runAction g w bodyJson with
       | (.ok result, w') =>
          main loads g w event =
            ({ statusCode := 200, headers := responseHeaders,
               body := jdumps result }, w')
       | (.error e, w') =>
          main loads g w event =
            ({ statusCode := 500, headers := responseHeaders,
               body := jdumps (.obj [("error", .str e)]) }, w')) := by
  unfold main
  rcases hl : loads (rawBody event) with e | bj
  · exact ⟨rfl, Or.inr rfl, rfl⟩
  · rcases hr : runAction g w bj with ⟨res, w'⟩
    cases res with
    | ok result =>
      simp only [hr]
      exact ⟨trivial, Or.inl trivial, trivial⟩
    | error e =>
      simp only [hr]
      exact ⟨trivial, Or.inr trivial, trivial⟩

/-- C2 counterexample: with `DATABASE_URL` absent the startup block never
runs and no error is recorded, so the status probe reports `db = false`
with an EMPTY `dbError` string — the claimed non-empty startup error
string does not exist.  Evaluated at a concrete status request. -/
theorem c2_counterexample :
    (main (fun _ => .ok (.obj [])) (startup envNoDb) world0 { body := none }).1 =
      { statusCode := 200, headers := responseHeaders,
        body := jdumps (statusProbe (startup envNoDb)) } ∧
    statusProbe (startup envNoDb) =
      .obj [("status", .str "ok"), ("python", .str "3.13"), ("db", .bool false),
            ("storage", .bool true), ("dbError", .str "")] ∧
    ¬ ∃ s, s ≠ "" ∧ statusProbe (startup envNoDb) =
      .obj [("status", .str "ok"), ("python", .str "3.13"), ("db", .bool false),
            ("storage", .bool true), ("dbError", .str s)] := by
  refine ⟨rfl, rfl, ?_⟩
  rintro ⟨s, hs, h⟩
  apply hs
  have h0 : statusProbe (startup envNoDb) =
      .obj [("status", .str "ok"), ("python", .str "3.13"), ("db", .bool false),
            ("storage", .bool true), ("dbError", .str "")] := rfl
  rw [h0] at h
  simpa using h.symm

/-- C2 (amended): when the database connection string is absent from the
environment, the status probe reports `db = false` with an EMPTY error
string (no startup error is recorded), and every data operation returns
HTTP 500 with the message `Database not connected: None`. -/
theorem c2_missing_db_config (env : Env) (loads : String → Except String Json)
    (w : World) (event : Event) (fields : List (String × Json)) (a : String)
    (henv : env.DATABASE_URL = none)
    (hload : loads (rawBody event) = .ok (.obj fields))
    (haction : jlookupD fields "action" (.str "status") = .str a)
    (ha : a ∈ (["list", "create", "delete", "upload", "list-media",
                "delete-media"] : List String)) :
    statusProbe (startup env) =
      .obj [("status", .str "ok"), ("python", .str "3.13"), ("db", .bool false),
            ("storage", .bool env.STORAGE_BUCKET.isSome), ("dbError", .str "")] ∧
    (main loads (startup env) w event).1 =
      { statusCode := 500, headers := responseHeaders,
        body := jdumps (.obj [("error", .str "Database not connected: None")]) } := by
  have hg : startup env =
      { db_conn := false, db_error := none, s3_bucket := env.STORAGE_BUCKET } := by
    unfold startup; rw [henv]
  constructor
  · rw [hg]; rfl
  · unfold main
    simp only [hload]
    unfold runAction
    simp only [haction]
    rw [hg]
    fin_cases ha <;> rfl

/-- C2 witness: the amended statement evaluated at a concrete
environment and list request. -/
theorem c2_missing_db_config_witness :
    statusProbe (startup envNoDb) =
      .obj [("status", .str "ok"), ("python", .str "3.13"), ("db", .bool false),
            ("storage", .bool envNoDb.STORAGE_BUCKET.isSome), ("dbError", .str "")] ∧
    (main (fun _ => .ok (.obj [("action", .str "list")])) (startup envNoDb) world0
        { body := none }).1 =
      { statusCode := 500, headers := responseHeaders,
        body := jdumps (.obj [("error", .str "Database not connected: None")]) } :=
  c2_missing_db_config envNoDb (fun _ => .ok (.obj [("action", .str "list")]))
    world0 { body := none } [("action", .str "list")] "list" rfl rfl rfl (by decide)

/-- C3: delete-media with a connection and configured store: when no media
row has the given id the operation returns deleted=false and leaves the
world — in particular the object-store call log — untouched; when a row
exists, the object under its `s3_key` is deleted and the row removed,
returning deleted=true. -/
theorem c3_delete_media (g : Globals) (w : World) (fields : List (String × Json))
    (n : Int) (hdb : g.db_conn = true) (hs3 : s3_client g = true)
    (hid : jlookup fields "id" = some (.num n)) :
    (w.db.media.find? (fun r => r.id == n) = none →
      delete_media g w fields = (.ok (.obj [("deleted", .bool false)]), w)) ∧
    (∀ row, w.db.media.find? (fun r => r.id == n) = some row →
      delete_media g w fields =
        (.ok (.obj [("deleted", .bool true)]),
         { w with
            s3calls := w.s3calls ++ [S3Call.deleteObject (bucketName g) row.s3_key],
            db := { w.db with
                      media := w.db.media.filter (fun r => !(r.id == n)) } })) := by
  constructor
  · intro hfind
    have hfind' : (w.db.media.find? fun r => idMatch (some n) r.id) = none := hfind
    unfold delete_media
    simp only [hdb, hs3, hid, Bool.not_true, Bool.false_eq_true, if_false,
      sqlIdParam, hfind']
  · intro row hfind
    have hfind' : (w.db.media.find? fun r => idMatch (some n) r.id) = some row := hfind
    unfold delete_media
    simp only [hdb, hs3, hid, Bool.not_true, Bool.false_eq_true, if_false,
      sqlIdParam, hfind']
    rfl

/-- C3 witness: the two branches evaluated against a concrete world that
holds exactly one media row with id 7. -/
theorem c3_delete_media_witness :
    (worldData.db.media.find? (fun r => r.id == (9 : Int)) = none →
      delete_media gFull worldData [("id", .num 9)] =
        (.ok (.obj [("deleted", .bool false)]), worldData)) ∧
    (∀ row, worldData.db.media.find? (fun r => r.id == (9 : Int)) = some row →
      delete_media gFull worldData [("id", .num 9)] =
        (.ok (.obj [("deleted", .bool true)]),
         { worldData with
            s3calls := worldData.s3calls ++
              [S3Call.deleteObject (bucketName gFull) row.s3_key],
            db := { worldData.db with
                      media := worldData.db.media.filter
                        (fun r => !(r.id == (9 : Int))) } })) :=
  c3_delete_media gFull worldData [("id", .num 9)] 9 rfl rfl rfl

/-- C4: the three failure gates of upload — database missing, storage
missing (two independent checks), and absent/empty `data` — each raise
the corresponding message and leave the world (object store and
database) completely unchanged; and when both stores are present and
`data` is truthy, the "no file data" failure cannot occur. -/
theorem c4_upload_failures (g : Globals) (w : World) (fields : List (String × Json)) :
    (g.db_conn = false →
      upload_media g w fields = (.error (dbNotConnectedMsg g), w)) ∧
    (g.db_conn = true → s3_client g = false →
      upload_media g w fields = (.error "Storage not configured", w)) ∧
    (g.db_conn = true → s3_client g = true →
      pyTruthyOpt (jlookup fields "data") = false →
      upload_media g w fields = (.error "No file data provided", w)) ∧
    (g.db_conn = true → s3_client g = true →
      pyTruthyOpt (jlookup fields "data") = true →
      (upload_media g w fields).1 ≠ .error "No file data provided") := by
  refine ⟨?_, ?_, ?_, ?_⟩
  · intro h; unfold upload_media; simp [h]
  · intro h1 h2; unfold upload_media; simp [h1, h2]
  · intro h1 h2 h3; unfold upload_media; simp [h1, h2, h3]
  · intro h1 h2 h3 hc
    unfold upload_media at hc
    simp only [h1, h2, h3, Bool.not_true, Bool.false_eq_true, if_false] at hc
    repeat' split at hc
    all_goals first
      | exact Except.noConfusion hc
      | (injection hc with hmsg; exact absurd hmsg (by decide))

/-- C4 witness: the failure gates evaluated at concrete inputs (a request
with no `data` field against a fully connected instance). -/
theorem c4_upload_failures_witness :
    ((gFull.db_conn = false →
      upload_media gFull world0 [] = (.error (dbNotConnectedMsg gFull), world0)) ∧
    (gFull.db_conn = true → s3_client gFull = false →
      upload_media gFull world0 [] = (.error "Storage not configured", world0)) ∧
    (gFull.db_conn = true → s3_client gFull = true →
      pyTruthyOpt (jlookup [] "data") = false →
      upload_media gFull world0 [] = (.error "No file data provided", world0)) ∧
    (gFull.db_conn = true → s3_client gFull = true →
      pyTruthyOpt (jlookup [] "data") = true →
      (upload_media gFull world0 []).1 ≠ .error "No file data provided")) ∧
    upload_media gFull world0 [] = (.error "No file data provided", world0) :=
  ⟨c4_upload_failures gFull world0 [],
   (c4_upload_failures gFull world0 []).2.2.1 rfl rfl rfl⟩

/-- C5: a delete-item request with a connected database returns HTTP 200
with body deleted=b, where b is true exactly when some row with the
given id existed; a nonexistent id yields deleted=false without error. -/
theorem c5_delete_item (loads : String → Except String Json) (g : Globals)
    (w : World) (event : Event) (fields : List (String × Json)) (n : Int)
    (hdb : g.db_conn = true)
    (hload : loads (rawBody event) = .ok (.obj fields))
    (haction : jlookupD fields "action" (.str "status") = .str "delete")
    (hid : jlookup fields "id" = some (.num n)) :
    ∃ b : Bool,
      (main loads g w event).1 =
        { statusCode := 200, headers := responseHeaders,
          body := jdumps (.obj [("deleted", .bool b)]) } ∧
      (b = true ↔ ∃ r ∈ w.db.items, r.id = n) := by
  unfold main
  simp only [hload]
  unfold runAction
  simp only [haction]
  unfold delete_item
  simp only [hdb, hid, Bool.not_true, Bool.false_eq_true, if_false, sqlIdParam]
  refine ⟨decide (0 < w.db.items.countP fun r => idMatch (some n) r.id), rfl, ?_⟩
  have : (fun r : ItemRow => idMatch (some n) r.id) = fun r => r.id == n := rfl
  rw [this]
  simp [List.countP_pos_iff]

/-- C5 witness: deleting id 9, which no row has, from a concrete table of
two items returns deleted=false with HTTP 200. -/
theorem c5_delete_item_witness :
    ∃ b : Bool,
      (main (fun _ => .ok (.obj [("action", .str "delete"), ("id", .num 9)]))
        gFull worldData { body := none }).1 =
        { statusCode := 200, headers := responseHeaders,
          body := jdumps (.obj [("deleted", .bool b)]) } ∧
      (b = true ↔ ∃ r ∈ worldData.db.items, r.id = (9 : Int)) :=
  c5_delete_item (fun _ => .ok (.obj [("action", .str "delete"), ("id", .num 9)]))
    gFull worldData { body := none } [("action", .str "delete"), ("id", .num 9)]
    9 rfl rfl rfl rfl

/-- C6: list-items with a connected database, on any table state, returns
the query rows projected to id / name / description (empty string when
NULL) / stringified createdAt; the query yields at most 50 rows, sorted
by creation time descending. -/
theorem c6_list_items (g : Globals) (w : World) (hdb : g.db_conn = true) :
    list_items g w =
      (.ok (.arr ((itemsQuery w.db).map (fun r =>
        .obj [("id", .num r.id), ("name", .str r.name),
              ("description", .str (r.description.getD "")),
              ("createdAt", .str (str_timestamp r.created_at))]))), w) ∧
    (itemsQuery w.db).length ≤ 50 ∧
    List.Sorted itemNewer (itemsQuery w.db) := by
  refine ⟨?_, ?_, ?_⟩
  · unfold list_items; simp [hdb]; exact fun a _ => rfl
  · unfold itemsQuery
    rw [List.length_take]
    exact min_le_left _ _
  · exact List.Pairwise.sublist (List.take_sublist _ _)
      (List.sorted_insertionSort itemNewer w.db.items)

/-- C6 witness: evaluated at the concrete two-row table (rows come back
newest first). -/
theorem c6_list_items_witness :
    (list_items gFull worldData =
      (.ok (.arr ((itemsQuery worldData.db).map (fun r =>
        .obj [("id", .num r.id), ("name", .str r.name),
              ("description", .str (r.description.getD "")),
              ("createdAt", .str (str_timestamp r.created_at))]))), worldData) ∧
    (itemsQuery worldData.db).length ≤ 50 ∧
    List.Sorted itemNewer (itemsQuery worldData.db)) ∧
    itemsQuery worldData.db = [itemRow2, itemRow1] :=
  ⟨c6_list_items gFull worldData rfl, by decide⟩

/-! ### Helper lemmas for the upload theorems -/

theorem b64encode_ne_empty (bs : List Nat) (h : bs ≠ []) : b64encode bs ≠ "" := by
  intro hc
  have hd : b64encodeChunks bs = [] := congrArg String.data hc
  cases bs with
  | nil => exact h rfl
  | cons a t =>
    cases t with
    | nil => exact absurd hd (by simp [b64encodeChunks])
    | cons b t2 =>
      cases t2 with
      | nil => exact absurd hd (by simp [b64encodeChunks])
      | cons c rest => exact absurd hd (by simp [b64encodeChunks])

/-- Evaluation of `upload_media` on its success path. -/
theorem upload_media_eval (g : Globals) (w : World) (fields : List (String × Json))
    (bytes : List Nat) (fn ct : String)
    (hdb : g.db_conn = true) (hs3 : s3_client g = true)
    (hbytes : ∀ x ∈ bytes, x < 256) (hne : bytes ≠ [])
    (hdata : jlookup fields "data" = some (.str (b64encode bytes)))
    (hct : jlookupD fields "contentType" (.str "application/octet-stream") = .str ct)
    (hfn : jlookupD fields "filename" (.str "file") = .str fn) :
    upload_media g w fields =
      (.ok (.obj [("id", .num w.db.mediaSeq), ("filename", .str fn),
                  ("s3Key", .str (mediaKey (w.uuids w.uuidCtr) fn)),
                  ("url", .str (presignedUrl (bucketName g)
                    (mediaKey (w.uuids w.uuidCtr) fn) 86400)),
                  ("createdAt", .str (str_timestamp w.db.clock))]),
       { db := { items := w.db.items,
                 media := w.db.media ++
                   [{ id := w.db.mediaSeq, filename := fn,
                      s3_key := mediaKey (w.uuids w.uuidCtr) fn,
                      content_type := some ct,
                      size_bytes := some (bytes.length : Int),
                      created_at := w.db.clock }],
                 itemSeq := w.db.itemSeq, mediaSeq := w.db.mediaSeq + 1,
                 clock := w.db.clock + 1 },
         s3calls := w.s3calls ++
           [S3Call.putObject (bucketName g) (mediaKey (w.uuids w.uuidCtr) fn) bytes ct,
            S3Call.presign (bucketName g) (mediaKey (w.uuids w.uuidCtr) fn) 86400],
         uuids := w.uuids, uuidCtr := w.uuidCtr + 1 }) := by
  have hne' : (b64encode bytes == "") = false :=
    beq_eq_false_iff_ne.mpr (b64encode_ne_empty bytes hne)
  have htruth : pyTruthyOpt (some (.str (b64encode bytes))) = true := by
    simp only [pyTruthyOpt, pyTruthy, hne', Bool.not_false]
  unfold upload_media
  simp only [hdb, hs3, htruth, hdata, Bool.not_true, Bool.false_eq_true, if_false,
    b64_roundtrip bytes hbytes, hct, hfn, pyStr]
  simp [List.append_assoc]

theorem append_slash_inj : ∀ (u1 u2 t1 t2 : List Char), '/' ∉ u1 → '/' ∉ u2 →
    u1 ++ '/' :: t1 = u2 ++ '/' :: t2 → u1 = u2 := by
  intro u1
  induction u1 with
  | nil =>
    intro u2 t1 t2 _ h2 h
    cases u2 with
    | nil => rfl
    | cons b u2' =>
      simp only [List.nil_append, List.cons_append, List.cons.injEq] at h
      exact absurd (by rw [h.1]; exact List.mem_cons_self b u2') h2
  | cons a u1' ih =>
    intro u2 t1 t2 h1 h2 h
    cases u2 with
    | nil =>
      simp only [List.nil_append, List.cons_append, List.cons.injEq] at h
      exact absurd (by rw [← h.1]; exact List.mem_cons_self a u1') h1
    | cons b u2' =>
      simp only [List.cons_append, List.cons.injEq] at h
      rw [h.1, ih u2' t1 t2 (fun hm => h1 (List.mem_cons_of_mem _ hm))
        (fun hm => h2 (List.mem_cons_of_mem _ hm)) h.2]

theorem string_data_append (s t : String) : (s ++ t).data = s.data ++ t.data := rfl

/-- Two storage keys built from distinct slash-free uuid strings differ,
whatever the filenames are. -/
theorem mediaKey_inj_uuid (u1 u2 f1 f2 : String)
    (h1 : '/' ∉ u1.toList) (h2 : '/' ∉ u2.toList)
    (h : mediaKey u1 f1 = mediaKey u2 f2) : u1 = u2 := by
  have hd := congrArg String.data h
  unfold mediaKey at hd
  simp only [string_data_append, List.append_assoc] at hd
  have hd' : u1.data ++ '/' :: f1.data = u2.data ++ '/' :: f2.data := by
    have := List.append_cancel_left hd
    simpa using this
  exact String.ext (append_slash_inj u1.data u2.data f1.data f2.data h1 h2 hd')

/-- C8: an upload whose `data` field is valid base64 text writes to the
object store exactly the decoded bytes, records `size_bytes` equal to the
decoded length, and re-encoding the stored bytes reproduces the input
text byte for byte. -/
theorem c8_upload_roundtrip (g : Globals) (w : World) (fields : List (String × Json))
    (bytes : List Nat) (fn ct : String)
    (hdb : g.db_conn = true) (hs3 : s3_client g = true)
    (hbytes : ∀ x ∈ bytes, x < 256) (hne : bytes ≠ [])
    (hdata : jlookup fields "data" = some (.str (b64encode bytes)))
    (hct : jlookupD fields "contentType" (.str "application/octet-stream") = .str ct)
    (hfn : jlookupD fields "filename" (.str "file") = .str fn) :
    ∃ stored : List Nat,
      b64decode (b64encode bytes) = some stored ∧
      (upload_media g w fields).2.s3calls =
        w.s3calls ++
          [S3Call.putObject (bucketName g) (mediaKey (w.uuids w.uuidCtr) fn) stored ct,
           S3Call.presign (bucketName g) (mediaKey (w.uuids w.uuidCtr) fn) 86400] ∧
      (upload_media g w fields).2.db.media =
        w.db.media ++
          [{ id := w.db.mediaSeq, filename := fn,
             s3_key := mediaKey (w.uuids w.uuidCtr) fn,
             content_type := some ct,
             size_bytes := some (stored.length : Int),
             created_at := w.db.clock }] ∧
      b64encode stored = b64encode bytes := by
  have he := upload_media_eval g w fields bytes fn ct hdb hs3 hbytes hne hdata hct hfn
  exact ⟨bytes, b64_roundtrip bytes hbytes, by rw [he], by rw [he], rfl⟩

/-- C8 witness: uploading the two bytes 72 105 (text "SGk=") against a
concrete world; the put-object body is [72, 105] and size_bytes is 2. -/
theorem c8_upload_roundtrip_witness :
    ∃ stored : List Nat,
      b64decode (b64encode [72, 105]) = some stored ∧
      (upload_media gFull world0
          [("data", .str (b64encode [72, 105]))]).2.s3calls =
        world0.s3calls ++
          [S3Call.putObject (bucketName gFull)
             (mediaKey (world0.uuids world0.uuidCtr) "file") stored
             "application/octet-stream",
           S3Call.presign (bucketName gFull)
             (mediaKey (world0.uuids world0.uuidCtr) "file") 86400] ∧
      (upload_media gFull world0
          [("data", .str (b64encode [72, 105]))]).2.db.media =
        world0.db.media ++
          [{ id := world0.db.mediaSeq, filename := "file",
             s3_key := mediaKey (world0.uuids world0.uuidCtr) "file",
             content_type := some "application/octet-stream",
             size_bytes := some (stored.length : Int),
             created_at := world0.db.clock }] ∧
      b64encode stored = b64encode [72, 105] :=
  c8_upload_roundtrip gFull world0 [("data", .str (b64encode [72, 105]))]
    [72, 105] "file" "application/octet-stream" rfl rfl (by decide) (by decide)
    rfl rfl rfl

/-- C7: each upload builds its storage key as `media/<uuid>/<filename>`
from a freshly drawn uuid, so two successive uploads — even with the same
filename — yield distinct keys, provided the two drawn identifiers differ
(uuid strings contain no slash). -/
theorem c7_upload_distinct_keys (g : Globals) (w : World)
    (fields1 fields2 : List (String × Json)) (bytes1 bytes2 : List Nat)
    (fn1 fn2 ct1 ct2 : String)
    (hdb : g.db_conn = true) (hs3 : s3_client g = true)
    (hbytes1 : ∀ x ∈ bytes1, x < 256) (hne1 : bytes1 ≠ [])
    (hdata1 : jlookup fields1 "data" = some (.str (b64encode bytes1)))
    (hct1 : jlookupD fields1 "contentType" (.str "application/octet-stream") = .str ct1)
    (hfn1 : jlookupD fields1 "filename" (.str "file") = .str fn1)
    (hbytes2 : ∀ x ∈ bytes2, x < 256) (hne2 : bytes2 ≠ [])
    (hdata2 : jlookup fields2 "data" = some (.str (b64encode bytes2)))
    (hct2 : jlookupD fields2 "contentType" (.str "application/octet-stream") = .str ct2)
    (hfn2 : jlookupD fields2 "filename" (.str "file") = .str fn2)
    (huu : w.uuids w.uuidCtr ≠ w.uuids (w.uuidCtr + 1))
    (hsl1 : '/' ∉ (w.uuids w.uuidCtr).toList)
    (hsl2 : '/' ∉ (w.uuids (w.uuidCtr + 1)).toList) :
    resultS3Key (upload_media g w fields1).1 =
      some (mediaKey (w.uuids w.uuidCtr) fn1) ∧
    resultS3Key (upload_media g (upload_media g w fields1).2 fields2).1 =
      some (mediaKey (w.uuids (w.uuidCtr + 1)) fn2) ∧
    mediaKey (w.uuids w.uuidCtr) fn1 ≠ mediaKey (w.uuids (w.uuidCtr + 1)) fn2 := by
  have h1 := upload_media_eval g w fields1 bytes1 fn1 ct1 hdb hs3 hbytes1 hne1
    hdata1 hct1 hfn1
  have h2 := upload_media_eval g (upload_media g w fields1).2 fields2 bytes2 fn2 ct2
    hdb hs3 hbytes2 hne2 hdata2 hct2 hfn2
  refine ⟨?_, ?_, ?_⟩
  · rw [h1]; rfl
  · rw [h2, h1]; rfl
  · intro hEq
    exact huu (mediaKey_inj_uuid _ _ _ _ hsl1 hsl2 hEq)

/-- C7 witness: two uploads of the same filename against a concrete world
whose uuid stream yields two different identifiers. -/
theorem c7_upload_distinct_keys_witness :
    resultS3Key (upload_media gFull world0
        [("data", .str (b64encode [72, 105]))]).1 =
      some (mediaKey (world0.uuids world0.uuidCtr) "file") ∧
    resultS3Key (upload_media gFull
        (upload_media gFull world0 [("data", .str (b64encode [72, 105]))]).2
        [("data", .str (b64encode [72, 105]))]).1 =
      some (mediaKey (world0.uuids (world0.uuidCtr + 1)) "file") ∧
    mediaKey (world0.uuids world0.uuidCtr) "file" ≠
      mediaKey (world0.uuids (world0.uuidCtr + 1)) "file" :=
  c7_upload_distinct_keys gFull world0
    [("data", .str (b64encode [72, 105]))] [("data", .str (b64encode [72, 105]))]
    [72, 105] [72, 105] "file" "file" "application/octet-stream"
    "application/octet-stream" rfl rfl
    (by decide) (by decide) rfl rfl rfl
    (by decide) (by decide) rfl rfl rfl
    (by decide) (by decide) (by decide)

/-! ### Helper lemmas for the create-session theorem -/

/-- A successful create returns the current SERIAL value as id and bumps
the sequence by one. -/
theorem create_item_ok_spec (g : Globals) (w : World) (fields : List (String × Json))
    (r : Json) (w1 : World) (h : create_item g w fields = (.ok r, w1)) :
    resultId (.ok r) = w.db.itemSeq ∧ w1.db.itemSeq = w.db.itemSeq + 1 := by
  unfold create_item at h
  by_cases hdb : g.db_conn = true
  · simp only [hdb, Bool.not_true, Bool.false_eq_true, if_false] at h
    rcases hp : itemInsertParams (jlookup fields "name")
        (jlookupD fields "description" (.str "")) with e | ⟨nm, ds⟩
    · rw [hp] at h
      exact absurd h (by simp)
    · rw [hp] at h
      injection h with h1 h2
      injection h1 with h1'
      subst h1'
      subst h2
      exact ⟨rfl, rfl⟩
  · simp only [Bool.not_eq_true] at hdb
    simp only [hdb, Bool.not_false, if_true] at h
    exact absurd h (by simp)

theorem runCreates_ids_spec (g : Globals) :
    ∀ (bodies : List (List (String × Json))) (w : World),
    (∀ r ∈ (runCreates g w bodies).1, isOkResult r = true) →
    List.Pairwise (· < ·) ((runCreates g w bodies).1.map resultId) ∧
    (∀ i ∈ (runCreates g w bodies).1.map resultId, w.db.itemSeq ≤ i) ∧
    w.db.itemSeq ≤ (runCreates g w bodies).2.db.itemSeq := by
  intro bodies
  induction bodies with
  | nil =>
    exact fun w _ =>
      ⟨List.Pairwise.nil, fun i hi => absurd hi (List.not_mem_nil i), le_refl _⟩
  | cons b bs ih =>
    intro w hall
    rcases hc : create_item g w b with ⟨r, w1⟩
    rcases hr : runCreates g w1 bs with ⟨rs, w2⟩
    have hrun : runCreates g w (b :: bs) = (r :: rs, w2) := by
      simp only [runCreates, hc, hr]
    have hrun1 : (runCreates g w (b :: bs)).1 = r :: rs := by rw [hrun]
    have hrun2 : (runCreates g w (b :: bs)).2 = w2 := by rw [hrun]
    have hr1 : (runCreates g w1 bs).1 = rs := by rw [hr]
    have hr2 : (runCreates g w1 bs).2 = w2 := by rw [hr]
    rw [hrun1] at hall
    rw [hrun1, hrun2]
    have hokr : isOkResult r = true := hall r (List.mem_cons_self _ _)
    cases r with
    | error e => exact absurd hokr (by simp [isOkResult])
    | ok j =>
      obtain ⟨hid, hseq⟩ := create_item_ok_spec g w b j w1 hc
      have halltail : ∀ x ∈ (runCreates g w1 bs).1, isOkResult x = true := by
        rw [hr1]
        exact fun x hx => hall x (List.mem_cons_of_mem _ hx)
      have ihh := ih w1 halltail
      rw [hr1, hr2] at ihh
      obtain ⟨ihp, ihlo, ihseq⟩ := ihh
      refine ⟨?_, ?_, ?_⟩
      · rw [List.map_cons, hid]
        refine List.pairwise_cons.mpr ⟨?_, ihp⟩
        intro i hi
        have := ihlo i hi
        omega
      · rw [List.map_cons, hid]
        intro i hi
        rcases List.mem_cons.mp hi with h' | h'
        · omega
        · have := ihlo i h'
          omega
      · omega

/-- C9: across a session of create-item requests that all succeed, the
returned ids are strictly increasing in request order and therefore
pairwise distinct. -/
theorem c9_create_ids_increasing (g : Globals) (w : World)
    (bodies : List (List (String × Json)))
    (hall : ∀ r ∈ (runCreates g w bodies).1, isOkResult r = true) :
    List.Pairwise (· < ·) ((runCreates g w bodies).1.map resultId) ∧
    List.Pairwise (· ≠ ·) ((runCreates g w bodies).1.map resultId) := by
  have h := runCreates_ids_spec g bodies w hall
  exact ⟨h.1, h.1.imp (fun hlt => ne_of_lt hlt)⟩

/-- C9 witness: two concrete create requests against an empty table yield
ids 1 and 2. -/
theorem c9_create_ids_increasing_witness :
    (∀ r ∈ (runCreates gFull world0
        [[("name", .str "widget")], [("name", .str "gadget")]]).1,
      isOkResult r = true) ∧
    (List.Pairwise (· < ·) ((runCreates gFull world0
        [[("name", .str "widget")], [("name", .str "gadget")]]).1.map resultId) ∧
    List.Pairwise (· ≠ ·) ((runCreates gFull world0
        [[("name", .str "widget")], [("name", .str "gadget")]]).1.map resultId)) ∧
    (runCreates gFull world0
        [[("name", .str "widget")], [("name", .str "gadget")]]).1.map resultId =
      [1, 2] := by
  refine ⟨?_, ?_, ?_⟩
  · intro r hr
    fin_cases hr <;> rfl
  · exact c9_create_ids_increasing gFull world0
      [[("name", .str "widget")], [("name", .str "gadget")]]
      (by intro r hr; fin_cases hr <;> rfl)
  · rfl

/-- C10: list-media succeeds without a configured object store (unlike
upload and delete-media): with a connected database it returns every
query row with the static fallback URL `/<s3_key>` and performs no
object-store call (the world is returned unchanged). -/
theorem c10_list_media_no_storage (g : Globals) (w : World)
    (hdb : g.db_conn = true) (hs3 : s3_client g = false) :
    list_media g w = (.ok (.arr ((mediaQuery w.db).map (projMedia g))), w) ∧
    ∀ r : MediaRow, projMedia g r =
      .obj [("id", .num r.id), ("filename", .str r.filename),
            ("s3Key", .str r.s3_key),
            ("url", .str ("/" ++ r.s3_key)),
            ("contentType", optStrJson r.content_type),
            ("sizeBytes", optIntJson r.size_bytes),
            ("createdAt", .str (str_timestamp r.created_at))] := by
  constructor
  · unfold list_media
    simp only [hdb, hs3, Bool.not_true, Bool.false_eq_true, if_false]
  · intro r
    unfold projMedia
    simp only [hs3, Bool.false_eq_true, if_false]

/-- C10 witness: a concrete media table listed with storage unconfigured
yields the fallback URL for its single row. -/
theorem c10_list_media_no_storage_witness :
    (list_media gNoStorage worldData =
      (.ok (.arr ((mediaQuery worldData.db).map (projMedia gNoStorage))),
        worldData) ∧
    ∀ r : MediaRow, projMedia gNoStorage r =
      .obj [("id", .num r.id), ("filename", .str r.filename),
            ("s3Key", .str r.s3_key),
            ("url", .str ("/" ++ r.s3_key)),
            ("contentType", optStrJson r.content_type),
            ("sizeBytes", optIntJson r.size_bytes),
            ("createdAt", .str (str_timestamp r.created_at))]) ∧
    projMedia gNoStorage mediaRow7 =
      .obj [("id", .num 7), ("filename", .str "a.txt"),
            ("s3Key", .str "media/u/a.txt"),
            ("url", .str "/media/u/a.txt"),
            ("contentType", .str "text/plain"),
            ("sizeBytes", .num 2), ("createdAt", .str "3")] :=
  ⟨c10_list_media_no_storage gNoStorage worldData rfl rfl, rfl⟩

end PyDemo
